import Mathlib

/-
Verification of the VisRTX progressive frame-accumulation state machine and the
hybrid surface/volume raygen integrator, shallowly embedded from:
  src/devices/rtx/frame/Frame.cu                 (frame state machine, map)
  src/unnamed/part_003                           (raygen and shadow programs)
  src/devices/rtx/scene/volume/TransferFunction1D.cpp

Machine floats are modelled as exact rationals, C ints as Int, uint32 values as
Nat (with 4294967295 for the all-ones sentinel).  Code that is referenced by the
excerpted sources but is not itself part of them (the shading helper library and
the OptiX traversal) is modelled from the specification; each such definition
says so in its doc comment.
-/

namespace VisRTX

/-- Subset of the ANARIDataType codes that the frame channel logic inspects;
the constructor other stands for any other concrete type code. -/
inductive ANARIDataType where
  | unknown
  | ufixed8RGBASRGB
  | float32Vec4
  | float32Vec3
  | float32
  | uint32
  | other
  deriving DecidableEq, Repr

/-- Accumulation-relevant part of FramebufferGPUData (gpu_objects.h lines
505-514): frameID and checkerboardID are C ints, invFrameID a float modelled
as a rational. -/
structure FramebufferGPUData where
  frameID : Int
  checkerboardID : Int
  invFrameID : ℚ
  deriving DecidableEq, Repr

/-- Host-side Frame members that drive accumulation (Frame.cu): the GPU
framebuffer state, the pending-reset flag, the cached flush timestamps, the
cached denoise mode and the validity flag computed at commit. -/
structure FrameState where
  fb : FramebufferGPUData
  nextFrameReset : Bool
  lastCommitOccured : Nat
  lastUploadOccured : Nat
  denoise : Bool
  valid : Bool
  deriving DecidableEq, Repr

/-- Monotonic flush counters supplied by the property-commit subsystem
(DeviceGlobalState): commitBufferLastFlush and uploadBuffer.lastFlush as
observed right after the flush calls at the top of Frame::renderFrame. -/
structure DeviceGlobalState where
  commitBufferLastFlush : Nat
  uploadBufferLastFlush : Nat
  deriving DecidableEq, Repr

/-- Frame parameters and renderer settings that are fixed across one
Frame::renderFrame call: which required objects are bound and valid, and the
renderer settings read through m_renderer. -/
structure FrameConfig where
  rendererBound : Bool
  rendererValid : Bool
  cameraBound : Bool
  cameraValid : Bool
  worldBound : Bool
  worldValid : Bool
  checkerboarding : Bool
  denoise : Bool
  sampleLimit : Int
  spp : Int
  deriving DecidableEq, Repr

namespace Frame

/-- Frame::checkerboarding (Frame.cu lines 512-515): false when no renderer is
bound. -/
def checkerboarding (cfg : FrameConfig) : Bool :=
  if cfg.rendererBound then cfg.checkerboarding else false

/-- Validity computed by Frame::commit (Frame.cu lines 104-105). -/
def commitValid (cfg : FrameConfig) : Bool :=
  cfg.rendererBound && cfg.rendererValid && cfg.cameraBound && cfg.cameraValid
    && cfg.worldBound && cfg.worldValid

/-- Effect of Frame::commit on the validity flag (Frame.cu lines 82-108); the
buffer reallocation it performs does not touch the accumulation state machine
fields. -/
def commit (cfg : FrameConfig) (s : FrameState) : FrameState :=
  { s with valid := commitValid cfg }

/-- Frame::checkAccumulationReset (Frame.cu lines 517-531): compares the two
cached flush timestamps against the monotonic counters, updating the caches and
raising the pending-reset flag on any advance. -/
def checkAccumulationReset (g : DeviceGlobalState) (s : FrameState) : FrameState :=
  if s.nextFrameReset then s
  else
    let s1 :=
      if s.lastCommitOccured < g.commitBufferLastFlush then
        { s with lastCommitOccured := g.commitBufferLastFlush, nextFrameReset := true }
      else s
    if s1.lastUploadOccured < g.uploadBufferLastFlush then
      { s1 with lastUploadOccured := g.uploadBufferLastFlush, nextFrameReset := true }
    else s1

/-- Frame::newFrame (Frame.cu lines 533-548); cb is Frame::checkerboarding().
The C expression (checkerboardID + 1) AND 0x3 on a twos-complement int equals
the nonnegative remainder mod 4, which is what Int.emod computes.  Both
branches read the pre-call checkerboardID, and invFrameID is recomputed from
the new frameID after either branch (source line 546). -/
def newFrame (cb : Bool) (s : FrameState) : FrameState :=
  let s1 : FrameState :=
    if s.nextFrameReset then
      { s with
        fb := { s.fb with
          frameID := 0
          checkerboardID := if cb then 0 else -1 }
        nextFrameReset := false }
    else
      { s with
        fb := { s.fb with
          frameID := s.fb.frameID + (if !cb || s.fb.checkerboardID == 3 then 1 else 0)
          checkerboardID := if cb then (s.fb.checkerboardID + 1) % 4 else -1 } }
  { s1 with fb := { s1.fb with invFrameID := 1 / ((s1.fb.frameID : ℚ) + 1) } }

/-- The sample-per-pixel loop of Frame::renderFrame (lines 294-313): each
iteration runs newFrame and issues one integrator launch. -/
def renderLoop (cb : Bool) : Nat → FrameState → FrameState
  | 0, s => s
  | Nat.succ n, s => renderLoop cb n (newFrame cb s)

/-- Outcome of Frame::renderFrame.  crash models the undefined behaviour of the
null world dereference at m_world->rebuildBVHs() (line 235), which precedes the
isValid() check; ok carries the post-call state, the number of optixLaunch
calls issued (all writes to accumulation and output buffers happen inside a
launch), and whether the invalid-frame skip message was reported. -/
inductive RenderResult where
  | crash : RenderResult
  | ok : FrameState → Nat → Bool → RenderResult
  deriving DecidableEq, Repr

/-- Frame::renderFrame (Frame.cu lines 219-322).  g holds the flush counters as
observed after the commit and upload flushes at the top of the call.  The
denoise-mode toggle re-runs commit (lines 245-248), which only refreshes the
validity flag and the cached mode as far as this state machine is concerned. -/
def renderFrame (cfg : FrameConfig) (g : DeviceGlobalState) (s : FrameState) :
    RenderResult :=
  if !cfg.worldBound then RenderResult.crash
  else if !s.valid then RenderResult.ok s 0 true
  else
    let s0 := if cfg.denoise != s.denoise
      then { commit cfg s with denoise := cfg.denoise } else s
    let s1 := checkAccumulationReset g s0
    if !s1.nextFrameReset && decide (0 < cfg.sampleLimit)
        && decide (cfg.sampleLimit ≤ s1.fb.frameID) then
      RenderResult.ok s1 0 false
    else
      let spp := (max cfg.spp 1).toNat
      RenderResult.ok (renderLoop (checkerboarding cfg) spp s1) spp false

/-- Channel parameters read by Frame::commit (Frame.cu lines 110-130): the
value of each channel.* parameter, with the getParam defaults already applied
(ufixed8RGBASRGB for channel.color, unknown for every other channel). -/
structure ChannelRequest where
  color : ANARIDataType
  depth : ANARIDataType
  primitiveId : ANARIDataType
  objectId : ANARIDataType
  instanceId : ANARIDataType
  albedo : ANARIDataType
  normal : ANARIDataType
  deriving DecidableEq, Repr

/-- Channel types stored by a valid Frame::commit (m_colorType .. m_normalType). -/
structure StoredChannelTypes where
  colorType : ANARIDataType
  depthType : ANARIDataType
  primIDType : ANARIDataType
  objIDType : ANARIDataType
  instIDType : ANARIDataType
  albedoType : ANARIDataType
  normalType : ANARIDataType
  deriving DecidableEq, Repr

/-- Channel-type computation of Frame::commit (Frame.cu lines 120-141):
requesting any of the ID channels with UINT32 promotes the stored depth type to
FLOAT32 (lines 138-141). -/
def commitChannelTypes (req : ChannelRequest) : StoredChannelTypes :=
  let channelPrimID := req.primitiveId == ANARIDataType.uint32
  let channelObjID := req.objectId == ANARIDataType.uint32
  let channelInstID := req.instanceId == ANARIDataType.uint32
  let channelDepth := req.depth == ANARIDataType.float32 || channelPrimID
    || channelObjID || channelInstID
  { colorType := req.color
    depthType :=
      if channelDepth && !(req.depth == ANARIDataType.float32) then
        ANARIDataType.float32
      else req.depth
    primIDType := req.primitiveId
    objIDType := req.objectId
    instIDType := req.instanceId
    albedoType := req.albedo
    normalType := req.normal }

/-- Observable outcome of Frame::map: whether the returned pointer is non-null
(every branch of the channel dispatch returns a live buffer), the reported
pixel type, and whether the width and height outputs were written. -/
structure MapResult where
  nonNull : Bool
  pixelType : ANARIDataType
  wroteSize : Bool
  deriving DecidableEq, Repr

/-- Frame::map (Frame.cu lines 324-379): dispatch on the channel name, gated by
the stored channel types; the width and height outputs are written only when
the reported type is not unknown (lines 370-374). -/
def map (t : StoredChannelTypes) (channel : String) : MapResult :=
  let channelDepth := t.depthType == ANARIDataType.float32
  let channelPrimID := t.primIDType == ANARIDataType.uint32
  let channelObjID := t.objIDType == ANARIDataType.uint32
  let channelInstID := t.instIDType == ANARIDataType.uint32
  let channelAlbedo := t.albedoType == ANARIDataType.float32
  let channelNormal := t.normalType == ANARIDataType.float32
  let r : ANARIDataType × Bool :=
    if channel == "channel.color" then (t.colorType, true)
    else if channel == "channel.colorGPU" then (t.colorType, true)
    else if channelDepth && channel == "channel.depth" then (ANARIDataType.float32, true)
    else if channelDepth && channel == "channel.depthGPU" then (ANARIDataType.float32, true)
    else if channelPrimID && channel == "channel.primitiveId" then (ANARIDataType.uint32, true)
    else if channelObjID && channel == "channel.objectId" then (ANARIDataType.uint32, true)
    else if channelInstID && channel == "channel.instanceId" then (ANARIDataType.uint32, true)
    else if channelNormal && channel == "channel.normal" then (ANARIDataType.float32Vec3, true)
    else if channelAlbedo && channel == "channel.albedo" then (ANARIDataType.float32Vec3, true)
    else (ANARIDataType.unknown, false)
  { nonNull := r.2, pixelType := r.1, wroteSize := !(r.1 == ANARIDataType.unknown) }

/-- Amended channel-gating predicate: a channel is enabled at commit when it
was requested with its recognized pixel type, except that the color channels
are always enabled and the depth channels are also enabled whenever any ID
channel is requested with UINT32. -/
def channelEnabled (req : ChannelRequest) (channel : String) : Bool :=
  channel == "channel.color" || channel == "channel.colorGPU"
  || ((channel == "channel.depth" || channel == "channel.depthGPU")
      && (req.depth == ANARIDataType.float32
          || req.primitiveId == ANARIDataType.uint32
          || req.objectId == ANARIDataType.uint32
          || req.instanceId == ANARIDataType.uint32))
  || (channel == "channel.primitiveId" && req.primitiveId == ANARIDataType.uint32)
  || (channel == "channel.objectId" && req.objectId == ANARIDataType.uint32)
  || (channel == "channel.instanceId" && req.instanceId == ANARIDataType.uint32)
  || (channel == "channel.normal" && req.normal == ANARIDataType.float32)
  || (channel == "channel.albedo" && req.albedo == ANARIDataType.float32)

/-- Pixel type an enabled channel is reported with: the configured color type
for the color channels, FLOAT32 for depth, UINT32 for the ID channels and
FLOAT32_VEC3 for normal and albedo. -/
def mappedPixelType (req : ChannelRequest) (channel : String) : ANARIDataType :=
  if channel == "channel.color" || channel == "channel.colorGPU" then req.color
  else if channel == "channel.depth" || channel == "channel.depthGPU" then
    ANARIDataType.float32
  else if channel == "channel.primitiveId" || channel == "channel.objectId"
      || channel == "channel.instanceId" then ANARIDataType.uint32
  else if channel == "channel.normal" || channel == "channel.albedo" then
    ANARIDataType.float32Vec3
  else ANARIDataType.unknown

end Frame

/-- Three-component vector of rationals, modelling glm vec3 of floats. -/
structure Vec3 where
  x : ℚ
  y : ℚ
  z : ℚ
  deriving DecidableEq, Repr

def Vec3.add (a b : Vec3) : Vec3 :=
  { x := a.x + b.x, y := a.y + b.y, z := a.z + b.z }

def Vec3.mul (a b : Vec3) : Vec3 :=
  { x := a.x * b.x, y := a.y * b.y, z := a.z * b.z }

def Vec3.smul (c : ℚ) (a : Vec3) : Vec3 :=
  { x := c * a.x, y := c * a.y, z := c * a.z }

def Vec3.neg (a : Vec3) : Vec3 :=
  { x := -a.x, y := -a.y, z := -a.z }

def Vec3.dot (a b : Vec3) : ℚ :=
  a.x * b.x + a.y * b.y + a.z * b.z

def Vec3.zero : Vec3 := { x := 0, y := 0, z := 0 }

/-- Fields of a SurfaceHit consumed by the raygen program, bundled with the
material values the program derives from the hit; baseColor and opacity stand
for the result of getMaterialValues at this hit (material evaluation is outside
the excerpted sources and is treated as data carried by the hit). -/
structure SurfaceHitData where
  t : ℚ
  Ng : Vec3
  epsilon : ℚ
  primID : Nat
  objID : Nat
  instID : Nat
  baseColor : Vec3
  opacity : ℚ
  deriving DecidableEq, Repr

/-- Modelled from the spec: result record of the Volume Ray-Marcher contract
(rayMarchAllVolumes, not under src): accumulated premultiplied color,
accumulated opacity, nearest-sample depth, and the object and instance IDs of
the first volumetric interaction. -/
structure VolumeMarchResult where
  color : Vec3
  opacity : ℚ
  depth : ℚ
  objID : Nat
  instID : Nat
  deriving DecidableEq, Repr

/-- Scene oracle consumed by one raygen launch: the surface hits the Ray/Hit
Classifier can report along the primary ray, the volume ray-marcher as a
function of the marched interval (Modelled from the spec: Volume Ray-Marcher
contract), the direct-light plus ambient term of the shaded surface (the
computeLightConrib and ambient-occlusion calls), the background color and
alpha, the ray direction and the primary interval upper bound tmax. -/
structure RaygenEnv where
  surfaces : List SurfaceHitData
  volMarch : ℚ → ℚ → VolumeMarchResult
  lightAmbient : SurfaceHitData → Vec3
  bgColor : Vec3
  bgAlpha : ℚ
  rayDir : Vec3
  tmax : ℚ

/-- Modelled from the spec: the Ray/Hit Classifier nearest-surface-hit query
(intersectSurface, not under src): among the hits whose distance lies in the
interval from lower (inclusive) to upper (exclusive), return one of minimal
distance. -/
def nearestIn (lower upper : ℚ) : List SurfaceHitData → Option SurfaceHitData
  | [] => none
  | h :: rest =>
    let best := nearestIn lower upper rest
    if lower ≤ h.t ∧ h.t < upper then
      match best with
      | none => some h
      | some b => if h.t ≤ b.t then some h else some b
    else best

/-- Modelled from the spec: accumulateValue, the premultiplied front-to-back
over operator on scalars: acc becomes acc + x * (1 - opacity). -/
def accumulateValue (acc x opacity : ℚ) : ℚ := acc + x * (1 - opacity)

/-- Modelled from the spec: accumulateValue on vectors. -/
def accumulateVec (acc x : Vec3) (opacity : ℚ) : Vec3 :=
  acc.add (Vec3.smul (1 - opacity) x)

/-- Loop state of the raygen program (part_003 lines 144-153), extended with a
ghost log of the surface hits that were returned by the classifier and shaded,
used to state that deeper surfaces are never evaluated. -/
structure RaygenState where
  outputColor : Vec3
  outputNormal : Vec3
  outputOpacity : ℚ
  depth : ℚ
  primID : Nat
  objID : Nat
  instID : Nat
  firstHit : Bool
  tLower : ℚ
  evaluated : List SurfaceHitData

/-- Initial per-pixel state (part_003 lines 144-153): color and opacity zero,
normal falls back to the ray direction, depth 1e30, IDs the all-ones uint32
sentinel, and the ray interval lower bound of the primary ray. -/
def initRaygenState (env : RaygenEnv) (t0 : ℚ) : RaygenState :=
  { outputColor := Vec3.zero
    outputNormal := env.rayDir
    outputOpacity := 0
    depth := 10 ^ 30
    primID := 4294967295
    objID := 4294967295
    instID := 4294967295
    firstHit := true
    tLower := t0
    evaluated := [] }

/-- Surface-found iteration body (part_003 lines 163-217): march the volumes up
to the hit, resolve first-hit depth/ID attribution by comparing the volumetric
first-sample depth against the surface distance, shade the surface, composite
volume-then-surface under the over operator, and advance the ray past the hit. -/
def surfaceStep (env : RaygenEnv) (st : RaygenState) (hit : SurfaceHitData) :
    RaygenState :=
  let v := env.volMarch st.tLower hit.t
  let color := v.color
  let opacity := v.opacity
  let st1 :=
    if st.firstHit then
      if v.depth < hit.t then
        { st with
          outputNormal := Vec3.neg env.rayDir
          depth := v.depth
          primID := 0
          objID := v.objID
          instID := v.instID
          firstHit := false }
      else
        { st with
          outputNormal := hit.Ng
          depth := hit.t
          primID := hit.primID
          objID := hit.objID
          instID := hit.instID
          firstHit := false }
    else st
  let color := accumulateVec color (Vec3.mul hit.baseColor (env.lightAmbient hit)) opacity
  let opacity := accumulateValue opacity hit.opacity opacity
  let color := Vec3.smul opacity color
  { st1 with
    outputColor := accumulateVec st1.outputColor color st1.outputOpacity
    outputOpacity := accumulateValue st1.outputOpacity opacity st1.outputOpacity
    tLower := hit.t + hit.epsilon
    evaluated := st1.evaluated ++ [hit] }

/-- No-surface iteration body (part_003 lines 218-244): march the volumes to the
interval upper bound, record first-hit volume attribution, composite the
background behind the volume contribution; the loop terminates here. -/
def missStep (env : RaygenEnv) (st : RaygenState) : RaygenState :=
  let v := env.volMarch st.tLower env.tmax
  let st1 :=
    if st.firstHit then
      { st with
        depth := min st.depth v.depth
        primID := 0
        objID := v.objID
        instID := v.instID }
    else st
  let color := Vec3.smul v.opacity v.color
  let color := accumulateVec color env.bgColor v.opacity
  let opacity := accumulateValue v.opacity env.bgAlpha v.opacity
  { st1 with
    outputColor := accumulateVec st1.outputColor color st1.outputOpacity
    outputOpacity := accumulateValue st1.outputOpacity opacity st1.outputOpacity }

/-- The raygen integrator loop (part_003 lines 155-246), with fuel for the
recursion: while the output opacity is below the 0.99 saturation threshold,
query the nearest surface hit in the current interval (the interval upper bound
is restored to tmax every iteration, line 156) and run the matching body; a
miss body ends the loop. -/
def raygenLoop (env : RaygenEnv) : Nat → RaygenState → RaygenState
  | 0, st => st
  | Nat.succ fuel, st =>
    if st.outputOpacity < 99 / 100 then
      match nearestIn st.tLower env.tmax env.surfaces with
      | some hit => raygenLoop env fuel (surfaceStep env st hit)
      | none => missStep env st
    else st

/-- One full raygen launch for a pixel whose primary ray starts at parameter t0. -/
def raygen (env : RaygenEnv) (t0 : ℚ) (fuel : Nat) : RaygenState :=
  raygenLoop env fuel (initRaygenState env t0)

/-- Surface branch of the shadow anyhit program run over the surface
intersections of one occlusion query (part_003 lines 97-109): an intersection
whose evaluated material opacity is at least 0.99 sets the occluded flag and
terminates the traversal (optixTerminateRay); any other intersection is ignored
(optixIgnoreIntersection) and the traversal continues.  Each list entry is the
evaluated material opacity of one surface intersection within the ray interval
up to the light distance.  Modelled from the spec: the traversal itself
(isOccluded) is not under src; it reports every surface intersection in the
interval to the anyhit program, in unspecified order, until the ray is
terminated.  The second component is the ghost list of intersections actually
visited. -/
def shadowTraverse : List ℚ → Bool × List ℚ
  | [] => (false, [])
  | o :: rest =>
    if 99 / 100 ≤ o then (true, [o])
    else
      let r := shadowTraverse rest
      (r.1, o :: r.2)

/-- Occlusion result of one shadow query (the boolean rayData the anyhit
program writes). -/
def isOccluded (hits : List ℚ) : Bool := (shadowTraverse hits).1

/-- One sampled light together with the results the two shadow traversals would
observe along its shadow ray: the sampled direction, distance and radiance
(sampleLight), the material opacities of the surface intersections up to the
light distance, and the ray-marched volume attenuation of the separate volume
traversal (the attenuation helper, part_003 lines 52-59 and 111-117). -/
structure ShadowSegment where
  dir : Vec3
  dist : ℚ
  radiance : Vec3
  surfaceOpacities : List ℚ
  volumeAttenuation : ℚ

/-- computeLightConrib (part_003 lines 61-88), with the per-light loop over the
light instances flattened into one list of sampled lights: an occluded light is
skipped; a visible light adds radiance times the cosine term times the falloff,
scaled by one minus the volume attenuation of its shadow ray. -/
def computeLightConrib (Ns : Vec3) (lightFalloff : ℚ)
    (lights : List ShadowSegment) : Vec3 :=
  lights.foldl
    (fun contrib seg =>
      if isOccluded seg.surfaceOpacities then contrib
      else
        contrib.add
          (Vec3.smul (Vec3.dot seg.dir Ns * lightFalloff * (1 - seg.volumeAttenuation))
            seg.radiance))
    Vec3.zero

/-- TransferFunction1D commit parameters relevant to the parameter checks and
to discritizeTFData (TransferFunction1D.cpp): the optional arrays are optional
lists, a missing parameter object is none. -/
structure TF1DParams where
  fieldSet : Bool
  color : Option (List Vec3)
  colorPosition : Option (List ℚ)
  opacity : Option (List ℚ)
  opacityPosition : Option (List ℚ)
  valueRangeLo : ℚ
  valueRangeHi : ℚ

/-- Parameter checks of TransferFunction1D::commit (lines 63-96) that guard the
call to discritizeTFData: field, color and opacity must be set, and each
position array that is present must match the size of its data array. -/
def tf1dCommitChecks (p : TF1DParams) : Bool :=
  p.fieldSet && p.color.isSome && p.opacity.isSome
    && (match p.colorPosition, p.color with
        | some cp, some c => cp.length == c.length
        | _, _ => true)
    && (match p.opacityPosition, p.opacity with
        | some op, some o => op.length == o.length
        | _, _ => true)

/-- Modelled from the spec: generateLinearPositions (colorMapHelpers, not under
src) produces count sample positions spread linearly over the value range. -/
def generateLinearPositions (count : Nat) (lo hi : ℚ) : List ℚ :=
  (List.range count).map (fun i => lo + (hi - lo) * i / (count - 1))

/-- Color sample positions chosen by discritizeTFData (lines 172-180): the
color.position array when present, else linear positions over the value range. -/
def tf1dColorPositions (p : TF1DParams) : Option (List ℚ) :=
  match p.colorPosition with
  | some cp => some cp
  | none =>
    some (generateLinearPositions ((p.color.getD []).length) p.valueRangeLo p.valueRangeHi)

/-- Opacity sample positions chosen by discritizeTFData (lines 182-190),
exactly as written in the source: the branch is guarded on colorPosition being
present, but the body reads through the opacityPosition array; none models the
null-pointer dereference when that array is absent. -/
def tf1dOpacityPositions (p : TF1DParams) : Option (List ℚ) :=
  match p.colorPosition with
  | some _ =>
    match p.opacityPosition with
    | some op => some op
    | none => none
  | none =>
    some (generateLinearPositions ((p.opacity.getD []).length) p.valueRangeLo p.valueRangeHi)

/-- The position-selection stage of discritizeTFData: some when both spans
were built without reading through an absent array, none on the null
dereference.  (The interpolation loop, lines 192-199, only consumes these
spans.) -/
def discritizeTFPositions (p : TF1DParams) : Option (List ℚ × List ℚ) :=
  match tf1dColorPositions p, tf1dOpacityPositions p with
  | some cp, some op => some (cp, op)
  | _, _ => none

-- Concrete inputs used by witnesses, counterexamples and code-bug evaluations.

/-- Frame state of a never-committed frame; the first render call must reset
(modelled from the spec: the first frame enters the reset-pending state). -/
def freshFrameState : FrameState :=
  { fb := { frameID := 0, checkerboardID := -1, invFrameID := 1 }
    nextFrameReset := true
    lastCommitOccured := 0
    lastUploadOccured := 0
    denoise := false
    valid := false }

/-- A fully bound and valid frame configuration, checkerboarding disabled,
one sample per pixel, no sample limit. -/
def cfg1W : FrameConfig :=
  { rendererBound := true, rendererValid := true
    cameraBound := true, cameraValid := true
    worldBound := true, worldValid := true
    checkerboarding := false, denoise := false
    sampleLimit := 0, spp := 1 }

/-- Flush counters after a scene-affecting commit flush has advanced. -/
def g1W : DeviceGlobalState :=
  { commitBufferLastFlush := 7, uploadBufferLastFlush := 3 }

/-- An accumulating frame state whose cached commit timestamp is stale. -/
def s1W : FrameState :=
  { fb := { frameID := 4, checkerboardID := -1, invFrameID := 1 / 5 }
    nextFrameReset := false
    lastCommitOccured := 6
    lastUploadOccured := 3
    denoise := false
    valid := true }

/-- An accumulating frame state with checkerboard phase 2. -/
def s2W : FrameState :=
  { fb := { frameID := 5, checkerboardID := 2, invFrameID := 1 / 6 }
    nextFrameReset := false
    lastCommitOccured := 6
    lastUploadOccured := 3
    denoise := false
    valid := true }

/-- Configuration whose frame has renderer and camera but no world bound. -/
def cfg6A : FrameConfig :=
  { rendererBound := true, rendererValid := true
    cameraBound := true, cameraValid := true
    worldBound := false, worldValid := false
    checkerboarding := false, denoise := false
    sampleLimit := 0, spp := 1 }

/-- Configuration whose frame has renderer and world but no camera bound. -/
def cfg6B : FrameConfig :=
  { rendererBound := true, rendererValid := true
    cameraBound := false, cameraValid := false
    worldBound := true, worldValid := true
    checkerboarding := false, denoise := false
    sampleLimit := 0, spp := 1 }

/-- Arbitrary flush counters for the invalid-frame render calls. -/
def g6W : DeviceGlobalState :=
  { commitBufferLastFlush := 1, uploadBufferLastFlush := 1 }

/-- Channel request with primitiveId enabled and depth never requested: the
counterexample input for the channel-gating claim. -/
def req7C : Frame.ChannelRequest :=
  { color := ANARIDataType.ufixed8RGBASRGB
    depth := ANARIDataType.unknown
    primitiveId := ANARIDataType.uint32
    objectId := ANARIDataType.unknown
    instanceId := ANARIDataType.unknown
    albedo := ANARIDataType.unknown
    normal := ANARIDataType.unknown }

/-- Channel request with the normal channel enabled. -/
def req7W : Frame.ChannelRequest :=
  { color := ANARIDataType.float32Vec4
    depth := ANARIDataType.unknown
    primitiveId := ANARIDataType.unknown
    objectId := ANARIDataType.unknown
    instanceId := ANARIDataType.unknown
    albedo := ANARIDataType.unknown
    normal := ANARIDataType.float32 }

/-- A valid configuration with a sample limit of 8. -/
def cfg8W : FrameConfig :=
  { rendererBound := true, rendererValid := true
    cameraBound := true, cameraValid := true
    worldBound := true, worldValid := true
    checkerboarding := false, denoise := false
    sampleLimit := 8, spp := 1 }

/-- Flush counters matching the caches of s8W (no pending scene change). -/
def g8W : DeviceGlobalState :=
  { commitBufferLastFlush := 6, uploadBufferLastFlush := 3 }

/-- An accumulating frame state that has reached the sample limit of cfg8W. -/
def s8W : FrameState :=
  { fb := { frameID := 8, checkerboardID := -1, invFrameID := 1 / 9 }
    nextFrameReset := false
    lastCommitOccured := 6
    lastUploadOccured := 3
    denoise := false
    valid := true }

/-- The same frame state as s8W but with a reset pending. -/
def s8R : FrameState :=
  { fb := { frameID := 8, checkerboardID := -1, invFrameID := 1 / 9 }
    nextFrameReset := true
    lastCommitOccured := 6
    lastUploadOccured := 3
    denoise := false
    valid := true }

/-- A volume ray-march oracle that reports an empty volume everywhere. -/
def volMarchEmpty : ℚ → ℚ → VolumeMarchResult := fun _ _ =>
  { color := Vec3.zero, opacity := 0, depth := 10 ^ 30
    objID := 4294967295, instID := 4294967295 }

/-- A fully opaque surface at distance 1. -/
def surfA : SurfaceHitData :=
  { t := 1, Ng := { x := 0, y := 0, z := -1 }, epsilon := 1 / 1000
    primID := 10, objID := 11, instID := 12
    baseColor := { x := 1, y := 0, z := 0 }, opacity := 1 }

/-- A fully opaque surface at distance 2, behind surfA. -/
def surfB : SurfaceHitData :=
  { t := 2, Ng := { x := 0, y := 0, z := -1 }, epsilon := 1 / 1000
    primID := 20, objID := 21, instID := 22
    baseColor := { x := 0, y := 1, z := 0 }, opacity := 1 }

/-- Raygen environment with two stacked fully opaque surfaces and no volumes. -/
def env3W : RaygenEnv :=
  { surfaces := [surfA, surfB]
    volMarch := volMarchEmpty
    lightAmbient := fun _ => Vec3.zero
    bgColor := Vec3.zero
    bgAlpha := 1
    rayDir := { x := 0, y := 0, z := 1 }
    tmax := 100 }

/-- A half-transparent surface at distance 5. -/
def surf5 : SurfaceHitData :=
  { t := 5, Ng := { x := 0, y := 0, z := -1 }, epsilon := 1 / 1000
    primID := 30, objID := 31, instID := 32
    baseColor := { x := 1, y := 1, z := 1 }, opacity := 1 / 2 }

/-- A half-transparent surface at distance 3. -/
def surf3 : SurfaceHitData :=
  { t := 3, Ng := { x := 0, y := 0, z := -1 }, epsilon := 1 / 1000
    primID := 30, objID := 31, instID := 32
    baseColor := { x := 1, y := 1, z := 1 }, opacity := 1 / 2 }

/-- A volume ray-march oracle whose first non-empty sample is at depth 3. -/
def volMarch3 : ℚ → ℚ → VolumeMarchResult := fun _ _ =>
  { color := Vec3.zero, opacity := 1 / 4, depth := 3, objID := 41, instID := 42 }

/-- A volume ray-march oracle whose first non-empty sample is at depth 5. -/
def volMarch5 : ℚ → ℚ → VolumeMarchResult := fun _ _ =>
  { color := Vec3.zero, opacity := 1 / 4, depth := 5, objID := 41, instID := 42 }

/-- Surface at distance 5 with a volume whose first sample is at depth 3. -/
def env4A : RaygenEnv :=
  { surfaces := [surf5]
    volMarch := volMarch3
    lightAmbient := fun _ => Vec3.zero
    bgColor := Vec3.zero
    bgAlpha := 1
    rayDir := { x := 0, y := 0, z := 1 }
    tmax := 100 }

/-- Surface at distance 3 with a volume whose first sample is at depth 5. -/
def env4B : RaygenEnv :=
  { surfaces := [surf3]
    volMarch := volMarch5
    lightAmbient := fun _ => Vec3.zero
    bgColor := Vec3.zero
    bgAlpha := 1
    rayDir := { x := 0, y := 0, z := 1 }
    tmax := 100 }

/-- A sampled light whose shadow ray crosses one transparent surface and some
participating medium. -/
def seg5W : ShadowSegment :=
  { dir := { x := 0, y := 1, z := 0 }, dist := 10
    radiance := { x := 2, y := 2, z := 2 }
    surfaceOpacities := [1 / 2]
    volumeAttenuation := 1 / 4 }

/-- TransferFunction1D parameters with color.position set but opacity.position
absent: the failing input of the opacity-position selection. -/
def p10C : TF1DParams :=
  { fieldSet := true
    color := some [{ x := 0, y := 0, z := 0 }, { x := 1, y := 1, z := 1 }]
    colorPosition := some [0, 1]
    opacity := some [0, 1 / 2, 1]
    opacityPosition := none
    valueRangeLo := 0
    valueRangeHi := 1 }

-- Helper lemmas about the frame state machine.

theorem checkAccumulationReset_nextFrameReset (g : DeviceGlobalState) (t : FrameState) :
    (Frame.checkAccumulationReset g t).nextFrameReset
      = (t.nextFrameReset
          || decide (t.lastCommitOccured < g.commitBufferLastFlush)
          || decide (t.lastUploadOccured < g.uploadBufferLastFlush)) := by
  unfold Frame.checkAccumulationReset
  cases h : t.nextFrameReset
  · by_cases h1 : t.lastCommitOccured < g.commitBufferLastFlush <;>
      by_cases h2 : t.lastUploadOccured < g.uploadBufferLastFlush <;>
        simp [h, h1, h2]
  · simp [h]

theorem checkAccumulationReset_fb (g : DeviceGlobalState) (t : FrameState) :
    (Frame.checkAccumulationReset g t).fb = t.fb := by
  unfold Frame.checkAccumulationReset
  cases h : t.nextFrameReset
  · by_cases h1 : t.lastCommitOccured < g.commitBufferLastFlush <;>
      by_cases h2 : t.lastUploadOccured < g.uploadBufferLastFlush <;>
        simp [h, h1, h2]
  · simp [h]

theorem checkAccumulationReset_valid (g : DeviceGlobalState) (t : FrameState) :
    (Frame.checkAccumulationReset g t).valid = t.valid := by
  unfold Frame.checkAccumulationReset
  cases h : t.nextFrameReset
  · by_cases h1 : t.lastCommitOccured < g.commitBufferLastFlush <;>
      by_cases h2 : t.lastUploadOccured < g.uploadBufferLastFlush <;>
        simp [h, h1, h2]
  · simp [h]

theorem checkAccumulationReset_denoise (g : DeviceGlobalState) (t : FrameState) :
    (Frame.checkAccumulationReset g t).denoise = t.denoise := by
  unfold Frame.checkAccumulationReset
  cases h : t.nextFrameReset
  · by_cases h1 : t.lastCommitOccured < g.commitBufferLastFlush <;>
      by_cases h2 : t.lastUploadOccured < g.uploadBufferLastFlush <;>
        simp [h, h1, h2]
  · simp [h]

theorem checkAccumulationReset_lastCommit_ge (g : DeviceGlobalState) (t : FrameState)
    (h : t.nextFrameReset = false) :
    g.commitBufferLastFlush ≤ (Frame.checkAccumulationReset g t).lastCommitOccured := by
  unfold Frame.checkAccumulationReset
  by_cases h1 : t.lastCommitOccured < g.commitBufferLastFlush <;>
    by_cases h2 : t.lastUploadOccured < g.uploadBufferLastFlush <;>
      simp [h, h1, h2] <;> omega

theorem checkAccumulationReset_lastUpload_ge (g : DeviceGlobalState) (t : FrameState)
    (h : t.nextFrameReset = false) :
    g.uploadBufferLastFlush ≤ (Frame.checkAccumulationReset g t).lastUploadOccured := by
  unfold Frame.checkAccumulationReset
  by_cases h1 : t.lastCommitOccured < g.commitBufferLastFlush <;>
    by_cases h2 : t.lastUploadOccured < g.uploadBufferLastFlush <;>
      simp [h, h1, h2] <;> omega

theorem checkAccumulationReset_id (g : DeviceGlobalState) (t : FrameState)
    (h1 : ¬t.lastCommitOccured < g.commitBufferLastFlush)
    (h2 : ¬t.lastUploadOccured < g.uploadBufferLastFlush) :
    Frame.checkAccumulationReset g t = t := by
  unfold Frame.checkAccumulationReset
  cases h : t.nextFrameReset <;> simp [h, h1, h2]

theorem checkAccumulationReset_of_reset (g : DeviceGlobalState) (t : FrameState)
    (h : t.nextFrameReset = true) :
    Frame.checkAccumulationReset g t = t := by
  unfold Frame.checkAccumulationReset
  simp [h]

theorem newFrame_valid (cb : Bool) (s : FrameState) :
    (Frame.newFrame cb s).valid = s.valid := by
  unfold Frame.newFrame
  cases h : s.nextFrameReset <;> simp [h]

theorem newFrame_denoise (cb : Bool) (s : FrameState) :
    (Frame.newFrame cb s).denoise = s.denoise := by
  unfold Frame.newFrame
  cases h : s.nextFrameReset <;> simp [h]

theorem newFrame_lastCommit (cb : Bool) (s : FrameState) :
    (Frame.newFrame cb s).lastCommitOccured = s.lastCommitOccured := by
  unfold Frame.newFrame
  cases h : s.nextFrameReset <;> simp [h]

theorem newFrame_lastUpload (cb : Bool) (s : FrameState) :
    (Frame.newFrame cb s).lastUploadOccured = s.lastUploadOccured := by
  unfold Frame.newFrame
  cases h : s.nextFrameReset <;> simp [h]

theorem newFrame_nextFrameReset (cb : Bool) (s : FrameState) :
    (Frame.newFrame cb s).nextFrameReset = false := by
  unfold Frame.newFrame
  cases h : s.nextFrameReset <;> simp [h]

theorem newFrame_reset_frameID (cb : Bool) (s : FrameState)
    (h : s.nextFrameReset = true) :
    (Frame.newFrame cb s).fb.frameID = 0 := by
  unfold Frame.newFrame
  simp [h]

theorem newFrame_accum_frameID (s : FrameState) (h : s.nextFrameReset = false) :
    (Frame.newFrame false s).fb.frameID = s.fb.frameID + 1 := by
  unfold Frame.newFrame
  simp [h]

/-- C9: after every newFrame transition, whether it resets or accumulates, the
stored inverse count invFrameID equals 1 / (frameID + 1) for the frameID value
just established by that transition. -/
theorem newFrame_invFrameID (cb : Bool) (s : FrameState) :
    (Frame.newFrame cb s).fb.invFrameID
      = 1 / (((Frame.newFrame cb s).fb.frameID : ℚ) + 1) := by
  unfold Frame.newFrame
  cases h : s.nextFrameReset <;> simp [h]

/-- C2: frame-state invariant of newFrame.  With checkerboarding enabled and no
pending reset, checkerboardID advances through the cycle 0,1,2,3,0 (staying in
the range 0..3) and frameID increments exactly when the phase wraps from 3 back
to 0; five calls starting from a pending reset give checkerboardID 0,1,2,3,0
and frameID 0,0,0,0,1.  With checkerboarding disabled, frameID increments on
every non-resetting call and checkerboardID stays at the sentinel -1.  A
resetting call sets frameID to 0 and checkerboardID to 0 when enabled and to
the sentinel when disabled. -/
theorem newFrame_phase_cycle (cb : Bool) (s : FrameState) :
    (s.nextFrameReset = false → cb = true → 0 ≤ s.fb.checkerboardID →
        s.fb.checkerboardID < 4 →
      (Frame.newFrame cb s).fb.checkerboardID = (s.fb.checkerboardID + 1) % 4 ∧
      0 ≤ (Frame.newFrame cb s).fb.checkerboardID ∧
      (Frame.newFrame cb s).fb.checkerboardID < 4 ∧
      ((Frame.newFrame cb s).fb.frameID = s.fb.frameID + 1 ↔
        s.fb.checkerboardID = 3) ∧
      ((Frame.newFrame cb s).fb.checkerboardID = 0 ↔ s.fb.checkerboardID = 3) ∧
      (s.fb.checkerboardID ≠ 3 →
        (Frame.newFrame cb s).fb.frameID = s.fb.frameID)) ∧
    (s.nextFrameReset = false → cb = false →
      (Frame.newFrame cb s).fb.frameID = s.fb.frameID + 1 ∧
      (Frame.newFrame cb s).fb.checkerboardID = -1) ∧
    (s.nextFrameReset = true →
      (Frame.newFrame cb s).fb.frameID = 0 ∧
      (Frame.newFrame cb s).fb.checkerboardID = (if cb then (0 : Int) else -1)) ∧
    (s.nextFrameReset = true → cb = true →
      ((Frame.newFrame cb s).fb.checkerboardID = 0 ∧
        (Frame.newFrame cb (Frame.newFrame cb s)).fb.checkerboardID = 1 ∧
        (Frame.newFrame cb (Frame.newFrame cb (Frame.newFrame cb s))).fb.checkerboardID = 2 ∧
        (Frame.newFrame cb (Frame.newFrame cb (Frame.newFrame cb (Frame.newFrame cb s)))).fb.checkerboardID = 3 ∧
        (Frame.newFrame cb (Frame.newFrame cb (Frame.newFrame cb (Frame.newFrame cb (Frame.newFrame cb s))))).fb.checkerboardID = 0) ∧
      ((Frame.newFrame cb s).fb.frameID = 0 ∧
        (Frame.newFrame cb (Frame.newFrame cb s)).fb.frameID = 0 ∧
        (Frame.newFrame cb (Frame.newFrame cb (Frame.newFrame cb s))).fb.frameID = 0 ∧
        (Frame.newFrame cb (Frame.newFrame cb (Frame.newFrame cb (Frame.newFrame cb s)))).fb.frameID = 0 ∧
        (Frame.newFrame cb (Frame.newFrame cb (Frame.newFrame cb (Frame.newFrame cb (Frame.newFrame cb s))))).fb.frameID = 1)) := by
  refine ⟨?_, ?_, ?_, ?_⟩
  · intro hr hcb h0 h4
    subst hcb
    unfold Frame.newFrame
    simp only [hr]
    by_cases h3 : s.fb.checkerboardID = 3 <;> simp [h3] <;> omega
  · intro hr hcb
    subst hcb
    unfold Frame.newFrame
    simp [hr]
  · intro hr
    unfold Frame.newFrame
    simp [hr]
  · intro hr hcb
    subst hcb
    simp [Frame.newFrame, hr]

/-- Witness for C2 at concrete states: advancing phase 2 does not increment
frameID, and with checkerboarding disabled frameID increments. -/
theorem newFrame_phase_cycle_witness :
    (Frame.newFrame true s2W).fb.checkerboardID = 3 ∧
    (Frame.newFrame true s2W).fb.frameID = 5 ∧
    (Frame.newFrame false s2W).fb.frameID = 6 := by
  obtain ⟨h1, -, -, -, -, h6⟩ :=
    (newFrame_phase_cycle true s2W).1 rfl rfl (by decide) (by decide)
  obtain ⟨h7, -⟩ := (newFrame_phase_cycle false s2W).2.1 rfl rfl
  refine ⟨h1.trans (by decide), ?_, h7.trans (by decide)⟩
  have h8 := h6 (by decide)
  exact h8.trans (by decide)

theorem renderFrame_run (cfg : FrameConfig) (g : DeviceGlobalState) (s : FrameState)
    (hw : cfg.worldBound = true) (hv : s.valid = true)
    (hdn : cfg.denoise = s.denoise)
    (hcap : (!(Frame.checkAccumulationReset g s).nextFrameReset
        && decide (0 < cfg.sampleLimit)
        && decide (cfg.sampleLimit ≤ (Frame.checkAccumulationReset g s).fb.frameID))
      = false) :
    Frame.renderFrame cfg g s
      = Frame.RenderResult.ok
          (Frame.renderLoop (Frame.checkerboarding cfg) (max cfg.spp 1).toNat
            (Frame.checkAccumulationReset g s))
          (max cfg.spp 1).toNat false := by
  unfold Frame.renderFrame
  simp only [hw, hv, hdn, bne_self_eq_false, Bool.false_eq_true, if_false,
    Bool.not_true, ite_false, ite_true, Bool.not_false]
  simp [hcap]

theorem renderFrame_capped (cfg : FrameConfig) (g : DeviceGlobalState) (s : FrameState)
    (hw : cfg.worldBound = true) (hv : s.valid = true)
    (hdn : cfg.denoise = s.denoise)
    (hca : Frame.checkAccumulationReset g s = s)
    (hcap : (!s.nextFrameReset && decide (0 < cfg.sampleLimit)
        && decide (cfg.sampleLimit ≤ s.fb.frameID)) = true) :
    Frame.renderFrame cfg g s = Frame.RenderResult.ok s 0 false := by
  unfold Frame.renderFrame
  simp only [hw, hv, hdn, bne_self_eq_false, Bool.false_eq_true, if_false,
    Bool.not_true, ite_false, ite_true, Bool.not_false, hca]
  simp [hcap]

/-- C1: on a valid frame with one sample per pixel and checkerboarding
disabled, if a commit flush or upload flush advanced a monotonic counter past
the locally cached value, the next renderFrame resets frameID to 0 and the call
after that brings it to 1; the reset decision is made before rendering starts
by checkAccumulationReset, which depends only on the pending flag and the
comparison of the two flush counters against the cached values. -/
theorem renderFrame_reset_on_flush
    (cfg : FrameConfig) (g : DeviceGlobalState) (s : FrameState)
    (hw : cfg.worldBound = true) (hv : s.valid = true)
    (hrb : cfg.rendererBound = true) (hcb : cfg.checkerboarding = false)
    (hspp : cfg.spp = 1) (hdn : cfg.denoise = s.denoise)
    (hnr : s.nextFrameReset = false)
    (hflush : s.lastCommitOccured < g.commitBufferLastFlush
      ∨ s.lastUploadOccured < g.uploadBufferLastFlush) :
    ∃ s1 s2 : FrameState,
      Frame.renderFrame cfg g s = Frame.RenderResult.ok s1 1 false ∧
      s1.fb.frameID = 0 ∧
      Frame.renderFrame cfg g s1 = Frame.RenderResult.ok s2 1 false ∧
      s2.fb.frameID = 1 ∧
      (Frame.checkAccumulationReset g s).nextFrameReset = true ∧
      (∀ (t : FrameState) (h : DeviceGlobalState),
        (Frame.checkAccumulationReset h t).nextFrameReset
          = (t.nextFrameReset
              || decide (t.lastCommitOccured < h.commitBufferLastFlush)
              || decide (t.lastUploadOccured < h.uploadBufferLastFlush))) := by
  have hcbF : Frame.checkerboarding cfg = false := by
    unfold Frame.checkerboarding
    simp [hrb, hcb]
  have hsppN : (max cfg.spp 1).toNat = 1 := by rw [hspp]; rfl
  set r := Frame.checkAccumulationReset g s with hrdef
  have hr : r.nextFrameReset = true := by
    rw [hrdef, checkAccumulationReset_nextFrameReset, hnr]
    rcases hflush with h | h <;> simp [h]
  set s1 := Frame.newFrame false r with hs1def
  have hcall1 : Frame.renderFrame cfg g s = Frame.RenderResult.ok s1 1 false := by
    rw [renderFrame_run cfg g s hw hv hdn (by simp [← hrdef, hr])]
    rw [hcbF, hsppN]
    rfl
  have hs1fid : s1.fb.frameID = 0 := newFrame_reset_frameID false r hr
  have hs1valid : s1.valid = true := by
    rw [hs1def, newFrame_valid, hrdef, checkAccumulationReset_valid, hv]
  have hs1dn : s1.denoise = s.denoise := by
    rw [hs1def, newFrame_denoise, hrdef, checkAccumulationReset_denoise]
  have hs1nr : s1.nextFrameReset = false := newFrame_nextFrameReset false r
  have hs1lc : ¬s1.lastCommitOccured < g.commitBufferLastFlush := by
    rw [hs1def, newFrame_lastCommit]
    have := checkAccumulationReset_lastCommit_ge g s hnr
    rw [← hrdef] at this
    omega
  have hs1lu : ¬s1.lastUploadOccured < g.uploadBufferLastFlush := by
    rw [hs1def, newFrame_lastUpload]
    have := checkAccumulationReset_lastUpload_ge g s hnr
    rw [← hrdef] at this
    omega
  have hca1 : Frame.checkAccumulationReset g s1 = s1 :=
    checkAccumulationReset_id g s1 hs1lc hs1lu
  set s2 := Frame.newFrame false s1 with hs2def
  have hcall2 : Frame.renderFrame cfg g s1 = Frame.RenderResult.ok s2 1 false := by
    rw [renderFrame_run cfg g s1 hw hs1valid (hdn.trans hs1dn.symm) ?_]
    · rw [hcbF, hsppN]
      rw [hca1]
      rfl
    · rw [hca1, hs1nr, hs1fid]
      by_cases hl : 0 < cfg.sampleLimit
      · have : ¬cfg.sampleLimit ≤ (0 : Int) := by omega
        simp [this]
      · simp [hl]
  have hs2fid : s2.fb.frameID = 1 := by
    rw [hs2def, newFrame_accum_frameID s1 hs1nr, hs1fid]
    omega
  exact ⟨s1, s2, hcall1, hs1fid, hcall2, hs2fid, hr,
    fun t h => checkAccumulationReset_nextFrameReset h t⟩

/-- Witness for C1 at a concrete configuration, counters and frame state. -/
theorem renderFrame_reset_on_flush_witness :
    ∃ s1 s2 : FrameState,
      Frame.renderFrame cfg1W g1W s1W = Frame.RenderResult.ok s1 1 false ∧
      s1.fb.frameID = 0 ∧
      Frame.renderFrame cfg1W g1W s1 = Frame.RenderResult.ok s2 1 false ∧
      s2.fb.frameID = 1 ∧
      (Frame.checkAccumulationReset g1W s1W).nextFrameReset = true ∧
      (∀ (t : FrameState) (h : DeviceGlobalState),
        (Frame.checkAccumulationReset h t).nextFrameReset
          = (t.nextFrameReset
              || decide (t.lastCommitOccured < h.commitBufferLastFlush)
              || decide (t.lastUploadOccured < h.uploadBufferLastFlush))) :=
  renderFrame_reset_on_flush cfg1W g1W s1W rfl rfl rfl rfl rfl rfl rfl
    (Or.inl (by decide))

/-- C8: on a valid frame with no pending reset, no pending flush, a positive
sample limit and frameID at or past the limit, renderFrame issues no integrator
launch and returns with the frame state (frameID, checkerboardID, invFrameID
and the cached timestamps) exactly unchanged, so no accumulation or output
buffer is written; a pending reset disables the cap and the launch loop runs. -/
theorem renderFrame_sample_limit_cap
    (cfg : FrameConfig) (g : DeviceGlobalState) (s : FrameState)
    (hw : cfg.worldBound = true) (hv : s.valid = true)
    (hdn : cfg.denoise = s.denoise) :
    (s.nextFrameReset = false →
      ¬s.lastCommitOccured < g.commitBufferLastFlush →
      ¬s.lastUploadOccured < g.uploadBufferLastFlush →
      0 < cfg.sampleLimit → cfg.sampleLimit ≤ s.fb.frameID →
      Frame.renderFrame cfg g s = Frame.RenderResult.ok s 0 false) ∧
    (s.nextFrameReset = true →
      Frame.renderFrame cfg g s
        = Frame.RenderResult.ok
            (Frame.renderLoop (Frame.checkerboarding cfg) (max cfg.spp 1).toNat s)
            (max cfg.spp 1).toNat false ∧
      1 ≤ (max cfg.spp 1).toNat) := by
  constructor
  · intro hnr h1 h2 hpos hreach
    exact renderFrame_capped cfg g s hw hv hdn
      (checkAccumulationReset_id g s h1 h2) (by simp [hnr, hpos, hreach])
  · intro hr
    constructor
    · rw [renderFrame_run cfg g s hw hv hdn ?_]
      · rw [checkAccumulationReset_of_reset g s hr]
      · rw [checkAccumulationReset_of_reset g s hr, hr]
        rfl
    · omega

/-- Witness for C8: at the sample limit the call is a no-op with zero launches,
while a pending reset re-enables the launch loop. -/
theorem renderFrame_sample_limit_cap_witness :
    Frame.renderFrame cfg8W g8W s8W = Frame.RenderResult.ok s8W 0 false ∧
    Frame.renderFrame cfg8W g8W s8R
      = Frame.RenderResult.ok
          (Frame.renderLoop (Frame.checkerboarding cfg8W) 1 s8R) 1 false := by
  constructor
  · exact (renderFrame_sample_limit_cap cfg8W g8W s8W rfl rfl rfl).1 rfl
      (by decide) (by decide) (by decide) (by decide)
  · have h := (renderFrame_sample_limit_cap cfg8W g8W s8R rfl rfl rfl).2 rfl
    exact h.1

/-- C6, evaluated at the failing input: committing a frame with no world bound
marks it invalid, but renderFrame then dereferences the null world pointer at
m_world->rebuildBVHs() before reaching the isValid() check, so the call is
undefined behaviour instead of a logged no-op.  For a frame that is invalid
only because the camera is missing, the call is the intended logged no-op that
leaves the state untouched and issues no launch. -/
theorem renderFrame_missing_world_crash :
    (Frame.commit cfg6A freshFrameState).valid = false ∧
    Frame.renderFrame cfg6A g6W (Frame.commit cfg6A freshFrameState)
      = Frame.RenderResult.crash ∧
    (Frame.commit cfg6B freshFrameState).valid = false ∧
    Frame.renderFrame cfg6B g6W (Frame.commit cfg6B freshFrameState)
      = Frame.RenderResult.ok (Frame.commit cfg6B freshFrameState) 0 true := by
  refine ⟨by decide, ?_, by decide, ?_⟩
  · unfold Frame.renderFrame
    simp [cfg6A]
  · unfold Frame.renderFrame
    have hv : (Frame.commit cfg6B freshFrameState).valid = false := by decide
    have hwb : cfg6B.worldBound = true := rfl
    simp [hv, hwb]

/-- C7 counterexample: with primitiveId requested as UINT32 and channel.depth
never set, mapping channel.depth returns a non-null pointer of type FLOAT32 and
writes the size outputs, although the depth channel was not requested with a
recognized pixel type at commit time — refuting the claimed iff. -/
theorem map_unrequested_depth_counterexample :
    Frame.map (Frame.commitChannelTypes req7C) "channel.depth"
      = { nonNull := true, pixelType := ANARIDataType.float32, wroteSize := true } ∧
    req7C.depth = ANARIDataType.unknown := by
  constructor
  · rfl
  · rfl

/-- C7 amended: mapping a channel returns a non-null pointer exactly when the
channel is enabled at commit, where a channel is enabled when requested with
its recognized pixel type (FLOAT32 for depth, UINT32 for the ID channels,
FLOAT32 for normal and albedo), except that the color channels are always
enabled with the configured color type and the depth channels are also enabled
whenever any ID channel is requested with UINT32; an enabled channel reports
its pixel type and the size outputs are written, and any other channel name
returns null with pixel type unknown and the size outputs untouched. -/
theorem map_channel_gating (req : Frame.ChannelRequest) (c : String)
    (hc : req.color ≠ ANARIDataType.unknown) :
    (Frame.map (Frame.commitChannelTypes req) c).nonNull
      = Frame.channelEnabled req c ∧
    (Frame.map (Frame.commitChannelTypes req) c).pixelType
      = (if Frame.channelEnabled req c then Frame.mappedPixelType req c
         else ANARIDataType.unknown) ∧
    (Frame.map (Frame.commitChannelTypes req) c).wroteSize
      = Frame.channelEnabled req c := by
  unfold Frame.map Frame.commitChannelTypes Frame.channelEnabled Frame.mappedPixelType
  by_cases h1 : c = "channel.color"
  · simp [h1, hc]
  · by_cases h2 : c = "channel.colorGPU"
    · simp [h1, h2, hc]
    · by_cases h3 : c = "channel.depth"
      · by_cases ha : req.depth = ANARIDataType.float32 <;>
          by_cases hp : req.primitiveId = ANARIDataType.uint32 <;>
            by_cases ho : req.objectId = ANARIDataType.uint32 <;>
              by_cases hi : req.instanceId = ANARIDataType.uint32 <;>
                simp [h1, h2, h3, ha, hp, ho, hi]
      · by_cases h4 : c = "channel.depthGPU"
        · by_cases ha : req.depth = ANARIDataType.float32 <;>
            by_cases hp : req.primitiveId = ANARIDataType.uint32 <;>
              by_cases ho : req.objectId = ANARIDataType.uint32 <;>
                by_cases hi : req.instanceId = ANARIDataType.uint32 <;>
                  simp [h1, h2, h3, h4, ha, hp, ho, hi]
        · by_cases h5 : c = "channel.primitiveId"
          · by_cases hp : req.primitiveId = ANARIDataType.uint32 <;>
              simp [h1, h2, h3, h4, h5, hp]
          · by_cases h6 : c = "channel.objectId"
            · by_cases ho : req.objectId = ANARIDataType.uint32 <;>
                simp [h1, h2, h3, h4, h5, h6, ho]
            · by_cases h7 : c = "channel.instanceId"
              · by_cases hi : req.instanceId = ANARIDataType.uint32 <;>
                  simp [h1, h2, h3, h4, h5, h6, h7, hi]
              · by_cases h8 : c = "channel.normal"
                · by_cases hn : req.normal = ANARIDataType.float32 <;>
                    simp [h1, h2, h3, h4, h5, h6, h7, h8, hn]
                · by_cases h9 : c = "channel.albedo"
                  · by_cases hb : req.albedo = ANARIDataType.float32 <;>
                      simp [h1, h2, h3, h4, h5, h6, h7, h8, h9, hb]
                  · simp [h1, h2, h3, h4, h5, h6, h7, h8, h9]

/-- Witness for the amended C7 claim at a concrete request: the normal channel,
requested with FLOAT32, maps non-null with pixel type FLOAT32_VEC3, while the
unrequested albedo channel maps null. -/
theorem map_channel_gating_witness :
    (Frame.map (Frame.commitChannelTypes req7W) "channel.normal").nonNull = true ∧
    (Frame.map (Frame.commitChannelTypes req7W) "channel.normal").pixelType
      = ANARIDataType.float32Vec3 ∧
    (Frame.map (Frame.commitChannelTypes req7W) "channel.albedo").nonNull = false := by
  have h1 := map_channel_gating req7W "channel.normal" (by decide)
  have h2 := map_channel_gating req7W "channel.albedo" (by decide)
  exact ⟨h1.1.trans (by decide), h1.2.1.trans (by decide), h2.1.trans (by decide)⟩

/-- C10, evaluated at the failing input: the commit parameter checks pass with
field, color, opacity and color.position set and opacity.position absent, yet
the opacity-position selection of discritizeTFData takes the branch guarded on
colorPosition and reads through the absent opacity.position array (the null
dereference, modelled as none) instead of generating linear positions. -/
theorem tf1d_opacity_position_null_deref :
    tf1dCommitChecks p10C = true ∧
    p10C.colorPosition.isSome = true ∧
    p10C.opacityPosition = none ∧
    tf1dOpacityPositions p10C = none ∧
    discritizeTFPositions p10C = none := by
  refine ⟨by decide, by decide, rfl, rfl, rfl⟩

-- Helper lemmas about the raygen integrator.

theorem nearestIn_none (lower upper : ℚ) (L : List SurfaceHitData)
    (hf : nearestIn lower upper L = none) :
    ∀ x ∈ L, ¬(lower ≤ x.t ∧ x.t < upper) := by
  induction L with
  | nil => simp
  | cons a rest ih =>
    by_cases hc : lower ≤ a.t ∧ a.t < upper
    · exfalso
      cases hbest : nearestIn lower upper rest with
      | none =>
        simp only [nearestIn, hbest] at hf
        simp [hc] at hf
      | some b =>
        simp only [nearestIn, hbest] at hf
        simp only [hc, if_true, ite_true] at hf
        by_cases hab : a.t ≤ b.t <;> simp [hab] at hf
    · simp only [nearestIn] at hf
      simp only [hc, if_false] at hf
      intro x hx
      rcases List.mem_cons.mp hx with rfl | hx2
      · exact hc
      · exact ih hf x hx2

theorem nearestIn_spec (lower upper : ℚ) (L : List SurfaceHitData) :
    ∀ h, nearestIn lower upper L = some h →
      h ∈ L ∧ lower ≤ h.t ∧ h.t < upper ∧
        ∀ h2 ∈ L, lower ≤ h2.t → h2.t < upper → h.t ≤ h2.t := by
  induction L with
  | nil => intro h hf; simp [nearestIn] at hf
  | cons a rest ih =>
    intro h hf
    by_cases hc : lower ≤ a.t ∧ a.t < upper
    · cases hbest : nearestIn lower upper rest with
      | none =>
        simp only [nearestIn, hbest] at hf
        simp only [hc, if_true, ite_true] at hf
        have ha : a = h := by simpa using hf
        subst ha
        refine ⟨List.mem_cons_self a rest, hc.1, hc.2, ?_⟩
        intro h2 hmem hl2 hu2
        rcases List.mem_cons.mp hmem with rfl | hmem2
        · exact le_refl _
        · exact absurd ⟨hl2, hu2⟩ (nearestIn_none lower upper rest hbest h2 hmem2)
      | some b =>
        obtain ⟨hbmem, hbl, hbu, hbmin⟩ := ih b hbest
        simp only [nearestIn, hbest] at hf
        simp only [hc, if_true, ite_true] at hf
        by_cases hab : a.t ≤ b.t
        · simp only [hab, if_true, ite_true] at hf
          have ha : a = h := by simpa using hf
          subst ha
          refine ⟨List.mem_cons_self a rest, hc.1, hc.2, ?_⟩
          intro h2 hmem hl2 hu2
          rcases List.mem_cons.mp hmem with rfl | hmem2
          · exact le_refl _
          · exact le_trans hab (hbmin h2 hmem2 hl2 hu2)
        · simp only [hab, if_false, ite_false] at hf
          have hb : b = h := by simpa using hf
          subst hb
          refine ⟨List.mem_cons_of_mem a hbmem, hbl, hbu, ?_⟩
          intro h2 hmem hl2 hu2
          rcases List.mem_cons.mp hmem with rfl | hmem2
          · exact le_of_lt (lt_of_not_le hab)
          · exact hbmin h2 hmem2 hl2 hu2
    · simp only [nearestIn] at hf
      simp only [hc, if_false] at hf
      obtain ⟨hm, hl, hu, hmin⟩ := ih h hf
      refine ⟨List.mem_cons_of_mem a hm, hl, hu, ?_⟩
      intro h2 hmem hl2 hu2
      rcases List.mem_cons.mp hmem with rfl | hmem2
      · exact absurd ⟨hl2, hu2⟩ hc
      · exact hmin h2 hmem2 hl2 hu2

theorem raygenLoop_saturated (env : RaygenEnv) (fuel : Nat) (st : RaygenState)
    (h : ¬st.outputOpacity < 99 / 100) :
    raygenLoop env fuel st = st := by
  cases fuel <;> simp [raygenLoop, h]

theorem surfaceStep_firstHit (env : RaygenEnv) (st : RaygenState)
    (hit : SurfaceHitData) (h : st.firstHit = false) :
    (surfaceStep env st hit).firstHit = false := by
  simp [surfaceStep, h]

theorem raygenLoop_attr_frozen (env : RaygenEnv) (fuel : Nat) (st : RaygenState)
    (h : st.firstHit = false) :
    (raygenLoop env fuel st).depth = st.depth ∧
    (raygenLoop env fuel st).primID = st.primID ∧
    (raygenLoop env fuel st).objID = st.objID ∧
    (raygenLoop env fuel st).instID = st.instID ∧
    (raygenLoop env fuel st).outputNormal = st.outputNormal := by
  induction fuel generalizing st with
  | zero => simp [raygenLoop]
  | succ f ih =>
    by_cases hg : st.outputOpacity < 99 / 100
    · cases hm : nearestIn st.tLower env.tmax env.surfaces with
      | some hit =>
        have hstep : raygenLoop env (f + 1) st
            = raygenLoop env f (surfaceStep env st hit) := by
          simp [raygenLoop, hg, hm]
        obtain ⟨d, p, o, i, n⟩ := ih (surfaceStep env st hit)
          (surfaceStep_firstHit env st hit h)
        rw [hstep]
        refine ⟨d.trans ?_, p.trans ?_, o.trans ?_, i.trans ?_, n.trans ?_⟩ <;>
          simp [surfaceStep, h]
      | none =>
        have hstep : raygenLoop env (f + 1) st = missStep env st := by
          simp [raygenLoop, hg, hm]
        rw [hstep]
        refine ⟨?_, ?_, ?_, ?_, ?_⟩ <;> simp [missStep, h]
    · rw [raygenLoop_saturated env (f + 1) st hg]
      exact ⟨rfl, rfl, rfl, rfl, rfl⟩

/-- C3: the integrator loop runs only while accumulated output opacity is below
the 0.99 saturation threshold: a saturated state returns immediately; an
iteration with no surface hit terminates the loop unconditionally; the hit the
classifier returns is the nearest one in the interval; and when the first
(nearest) surface has material opacity at least 0.99, one iteration saturates
the output opacity, so exactly that surface is evaluated and deeper surfaces
are never intersected or shaded. -/
theorem raygen_opacity_saturation (env : RaygenEnv) (fuel : Nat)
    (st : RaygenState) (t0 : ℚ) (hit : SurfaceHitData) :
    (¬st.outputOpacity < 99 / 100 → raygenLoop env fuel st = st) ∧
    (nearestIn st.tLower env.tmax env.surfaces = none → 1 ≤ fuel →
      raygenLoop env fuel st
        = if st.outputOpacity < 99 / 100 then missStep env st else st) ∧
    (∀ h, nearestIn t0 env.tmax env.surfaces = some h →
      h ∈ env.surfaces ∧ t0 ≤ h.t ∧ h.t < env.tmax ∧
        ∀ h2 ∈ env.surfaces, t0 ≤ h2.t → h2.t < env.tmax → h.t ≤ h2.t) ∧
    (nearestIn t0 env.tmax env.surfaces = some hit →
      99 / 100 ≤ hit.opacity →
      (∀ l u, 0 ≤ (env.volMarch l u).opacity ∧ (env.volMarch l u).opacity ≤ 1) →
      1 ≤ fuel →
      (raygen env t0 fuel).evaluated = [hit] ∧
      99 / 100 ≤ (raygen env t0 fuel).outputOpacity) := by
  refine ⟨raygenLoop_saturated env fuel st, ?_, nearestIn_spec t0 env.tmax env.surfaces, ?_⟩
  · intro hnone hfuel
    obtain ⟨f, rfl⟩ : ∃ f, fuel = f + 1 := ⟨fuel - 1, by omega⟩
    by_cases hg : st.outputOpacity < 99 / 100 <;> simp [raygenLoop, hg, hnone]
  · intro hfind hop hvol hfuel
    obtain ⟨f, rfl⟩ : ∃ f, fuel = f + 1 := ⟨fuel - 1, by omega⟩
    have hg : (initRaygenState env t0).outputOpacity < 99 / 100 := by
      norm_num [initRaygenState]
    have htl : (initRaygenState env t0).tLower = t0 := rfl
    have hstep : raygen env t0 (f + 1)
        = raygenLoop env f (surfaceStep env (initRaygenState env t0) hit) := by
      unfold raygen
      simp [raygenLoop, hg, htl, hfind]
    have hv0 := (hvol t0 hit.t).1
    have hv1 := (hvol t0 hit.t).2
    have hsat : 99 / 100 ≤ (surfaceStep env (initRaygenState env t0) hit).outputOpacity := by
      simp only [surfaceStep, initRaygenState, accumulateValue]
      split_ifs <;>
        · simp only
          nlinarith [mul_nonneg (sub_nonneg.mpr hop)
            (sub_nonneg.mpr ((hvol t0 hit.t).2))]
    rw [hstep, raygenLoop_saturated env f _ (not_lt.mpr hsat)]
    constructor
    · simp only [surfaceStep, initRaygenState]
      split_ifs <;> rfl
    · exact hsat

/-- Witness for C3: with two stacked fully opaque surfaces at distances 1 and
2, only the first is evaluated and the output opacity saturates. -/
theorem raygen_opacity_saturation_witness :
    (raygen env3W 0 3).evaluated = [surfA] ∧
    99 / 100 ≤ (raygen env3W 0 3).outputOpacity := by
  have h := (raygen_opacity_saturation env3W 3 (initRaygenState env3W 0) 0 surfA).2.2.2
  exact h (by norm_num [nearestIn, env3W, surfA, surfB]) (by norm_num [surfA])
    (fun l u => ⟨le_refl 0, by norm_num [env3W, volMarchEmpty]⟩) (by norm_num)

/-- C4: on the first loop iteration with a surface hit found, the authoritative
depth, IDs and output normal are the volume first-sample attribution (depth,
object and instance IDs of the volume, primitive ID 0, negated ray direction)
when the volumetric first-sample depth is smaller than the surface distance,
and the surface attribution (surface distance, geometric normal and surface
IDs) otherwise — so swapping which of the two is nearer swaps the attribution;
later iterations never overwrite these fields. -/
theorem raygen_depth_id_tiebreak (env : RaygenEnv) (t0 : ℚ) (fuel : Nat)
    (hit : SurfaceHitData)
    (hfind : nearestIn t0 env.tmax env.surfaces = some hit) (hfuel : 1 ≤ fuel) :
    ((env.volMarch t0 hit.t).depth < hit.t →
      (raygen env t0 fuel).depth = (env.volMarch t0 hit.t).depth ∧
      (raygen env t0 fuel).primID = 0 ∧
      (raygen env t0 fuel).objID = (env.volMarch t0 hit.t).objID ∧
      (raygen env t0 fuel).instID = (env.volMarch t0 hit.t).instID ∧
      (raygen env t0 fuel).outputNormal = Vec3.neg env.rayDir) ∧
    (¬(env.volMarch t0 hit.t).depth < hit.t →
      (raygen env t0 fuel).depth = hit.t ∧
      (raygen env t0 fuel).primID = hit.primID ∧
      (raygen env t0 fuel).objID = hit.objID ∧
      (raygen env t0 fuel).instID = hit.instID ∧
      (raygen env t0 fuel).outputNormal = hit.Ng) := by
  obtain ⟨f, rfl⟩ : ∃ f, fuel = f + 1 := ⟨fuel - 1, by omega⟩
  have hg : (initRaygenState env t0).outputOpacity < 99 / 100 := by
    norm_num [initRaygenState]
  have htl : (initRaygenState env t0).tLower = t0 := rfl
  have hstep : raygen env t0 (f + 1)
      = raygenLoop env f (surfaceStep env (initRaygenState env t0) hit) := by
    unfold raygen
    simp [raygenLoop, hg, htl, hfind]
  have hfh : (surfaceStep env (initRaygenState env t0) hit).firstHit = false := by
    simp only [surfaceStep, initRaygenState]
    split_ifs <;> rfl
  obtain ⟨d, p, o, i, n⟩ :=
    raygenLoop_attr_frozen env f (surfaceStep env (initRaygenState env t0) hit) hfh
  rw [hstep]
  constructor
  · intro hlt
    refine ⟨d.trans ?_, p.trans ?_, o.trans ?_, i.trans ?_, n.trans ?_⟩ <;>
      · simp only [surfaceStep, initRaygenState, htl]
        simp [hlt]
  · intro hge
    refine ⟨d.trans ?_, p.trans ?_, o.trans ?_, i.trans ?_, n.trans ?_⟩ <;>
      · simp only [surfaceStep, initRaygenState, htl]
        simp [hge]

/-- Witness for C4: a surface at distance 5 with a volume first sample at depth
3 attributes to the volume, and swapping the distances attributes to the
surface. -/
theorem raygen_depth_id_tiebreak_witness :
    (raygen env4A 0 2).depth = 3 ∧ (raygen env4A 0 2).primID = 0 ∧
    (raygen env4A 0 2).objID = 41 ∧ (raygen env4A 0 2).instID = 42 ∧
    (raygen env4B 0 2).depth = 3 ∧ (raygen env4B 0 2).primID = 30 ∧
    (raygen env4B 0 2).objID = 31 ∧ (raygen env4B 0 2).instID = 32 := by
  have hA := (raygen_depth_id_tiebreak env4A 0 2 surf5
    (by norm_num [nearestIn, env4A, surf5]) (by norm_num)).1
    (by norm_num [env4A, volMarch3, surf5])
  have hB := (raygen_depth_id_tiebreak env4B 0 2 surf3
    (by norm_num [nearestIn, env4B, surf3]) (by norm_num)).2
    (by norm_num [env4B, volMarch5, surf3])
  exact ⟨hA.1.trans rfl, hA.2.1, hA.2.2.1.trans rfl,
    hA.2.2.2.1.trans rfl, hB.1.trans rfl, hB.2.1.trans rfl,
    hB.2.2.1.trans rfl, hB.2.2.2.1.trans rfl⟩

-- Helper lemmas about the shadow model.

theorem vec3_add_zero (a : Vec3) : a.add Vec3.zero = a := by
  cases a
  simp [Vec3.add, Vec3.zero]

theorem isOccluded_iff (hits : List ℚ) :
    isOccluded hits = true ↔ ∃ o ∈ hits, 99 / 100 ≤ o := by
  induction hits with
  | nil => simp [isOccluded, shadowTraverse]
  | cons o rest ih =>
    by_cases h : 99 / 100 ≤ o
    · simp only [isOccluded, shadowTraverse, if_pos h]
      constructor
      · intro _
        exact ⟨o, List.mem_cons_self o rest, h⟩
      · intro _
        trivial
    · simp only [isOccluded, shadowTraverse, if_neg h]
      rw [show (shadowTraverse rest).1 = isOccluded rest from rfl, ih]
      constructor
      · rintro ⟨x, hx, hxo⟩
        exact ⟨x, List.mem_cons_of_mem o hx, hxo⟩
      · rintro ⟨x, hx, hxo⟩
        rcases List.mem_cons.mp hx with rfl | hx2
        · exact absurd hxo h
        · exact ⟨x, hx2, hxo⟩

theorem shadowTraverse_early_out (pre post : List ℚ) (o : ℚ)
    (hpre : ∀ p ∈ pre, p < 99 / 100) (ho : 99 / 100 ≤ o) :
    shadowTraverse (pre ++ o :: post) = (true, pre ++ [o]) := by
  induction pre with
  | nil => simp [shadowTraverse, ho]
  | cons p ps ih =>
    have hp : p < 99 / 100 := hpre p (List.mem_cons_self p ps)
    have hps : ∀ q ∈ ps, q < 99 / 100 := fun q hq => hpre q (List.mem_cons_of_mem p hq)
    simp only [List.cons_append, shadowTraverse, List.append_eq,
      if_neg (not_le.mpr hp), ih hps]

theorem isOccluded_ignore_transparent (l1 l2 : List ℚ) (o : ℚ)
    (ho : o < 99 / 100) :
    isOccluded (l1 ++ o :: l2) = isOccluded (l1 ++ l2) := by
  by_cases hocc : ∃ x ∈ l1 ++ l2, 99 / 100 ≤ x
  · obtain ⟨x, hx, hxo⟩ := hocc
    have h1 : isOccluded (l1 ++ l2) = true := (isOccluded_iff _).mpr ⟨x, hx, hxo⟩
    have h2 : isOccluded (l1 ++ o :: l2) = true := by
      refine (isOccluded_iff _).mpr ⟨x, ?_, hxo⟩
      rcases List.mem_append.mp hx with hx1 | hx2
      · exact List.mem_append.mpr (Or.inl hx1)
      · exact List.mem_append.mpr (Or.inr (List.mem_cons_of_mem o hx2))
    rw [h1, h2]
  · have h1 : isOccluded (l1 ++ l2) = false := by
      cases hb : isOccluded (l1 ++ l2)
      · rfl
      · exact absurd ((isOccluded_iff _).mp hb) hocc
    have h2 : isOccluded (l1 ++ o :: l2) = false := by
      cases hb : isOccluded (l1 ++ o :: l2)
      · rfl
      · exfalso
        obtain ⟨x, hx, hxo⟩ := (isOccluded_iff _).mp hb
        rcases List.mem_append.mp hx with hx1 | hx2
        · exact hocc ⟨x, List.mem_append.mpr (Or.inl hx1), hxo⟩
        · rcases List.mem_cons.mp hx2 with rfl | hx3
          · exact absurd hxo (not_le.mpr ho)
          · exact hocc ⟨x, List.mem_append.mpr (Or.inr hx3), hxo⟩
    rw [h1, h2]

theorem computeLightConrib_eq (Ns : Vec3) (falloff : ℚ)
    (lights : List ShadowSegment) :
    computeLightConrib Ns falloff lights
      = (lights.map (fun seg =>
          if isOccluded seg.surfaceOpacities then Vec3.zero
          else
            Vec3.smul (Vec3.dot seg.dir Ns * falloff * (1 - seg.volumeAttenuation))
              seg.radiance)).foldl Vec3.add Vec3.zero := by
  rw [List.foldl_map]
  unfold computeLightConrib
  congr 1
  funext acc seg
  by_cases h : isOccluded seg.surfaceOpacities <;> simp [h, vec3_add_zero]

/-- C5: shadow-ray semantics.  The occlusion query reports occluded exactly
when some surface intersection up to the light distance has evaluated material
opacity at least 0.99; such an opaque hit terminates the shadow traversal
immediately so that deeper intersections are never visited; a surface with
opacity below 0.99 is ignored, changing neither the occlusion result nor any
attenuation; and computeLightConrib adds, for each non-occluded light only, its
radiance weighted by the cosine and falloff terms and by one minus the
ray-marched volume attenuation of its shadow ray. -/
theorem shadow_ray_semantics :
    (∀ hits : List ℚ, isOccluded hits = true ↔ ∃ o ∈ hits, 99 / 100 ≤ o) ∧
    (∀ (pre post : List ℚ) (o : ℚ), (∀ p ∈ pre, p < 99 / 100) → 99 / 100 ≤ o →
      shadowTraverse (pre ++ o :: post) = (true, pre ++ [o])) ∧
    (∀ (l1 l2 : List ℚ) (o : ℚ), o < 99 / 100 →
      isOccluded (l1 ++ o :: l2) = isOccluded (l1 ++ l2)) ∧
    (∀ (Ns : Vec3) (falloff : ℚ) (lights : List ShadowSegment),
      computeLightConrib Ns falloff lights
        = (lights.map (fun seg =>
            if isOccluded seg.surfaceOpacities then Vec3.zero
            else
              Vec3.smul
                (Vec3.dot seg.dir Ns * falloff * (1 - seg.volumeAttenuation))
                seg.radiance)).foldl Vec3.add Vec3.zero) :=
  ⟨isOccluded_iff, shadowTraverse_early_out, isOccluded_ignore_transparent,
    computeLightConrib_eq⟩

/-- Witness for C5 at concrete shadow queries: an opaque hit occludes and cuts
the traversal short, a transparent hit changes nothing, and a single visible
light through a transparent surface and a quarter-attenuating volume
contributes three halves of its unit-weighted radiance. -/
theorem shadow_ray_semantics_witness :
    isOccluded [1 / 2, 1] = true ∧
    shadowTraverse [1 / 2, 1, 1 / 4] = (true, [1 / 2, 1]) ∧
    isOccluded ([] ++ (1 / 2 : ℚ) :: [1 / 4]) = isOccluded ([] ++ [1 / 4]) ∧
    computeLightConrib { x := 0, y := 1, z := 0 } 1 [seg5W]
      = { x := 3 / 2, y := 3 / 2, z := 3 / 2 } := by
  have h := shadow_ray_semantics
  refine ⟨?_, ?_, ?_, ?_⟩
  · exact (h.1 [1 / 2, 1]).mpr ⟨1, by simp, by norm_num⟩
  · refine h.2.1 [1 / 2] [1 / 4] 1 ?_ (by norm_num)
    intro p hp
    have : p = 1 / 2 := by simpa using hp
    rw [this]
    norm_num
  · exact h.2.2.1 [] [1 / 4] (1 / 2) (by norm_num)
  · refine (h.2.2.2 { x := 0, y := 1, z := 0 } 1 [seg5W]).trans ?_
    have hocc : isOccluded [1 / 2] = false := by
      norm_num [isOccluded, shadowTraverse]
    norm_num [seg5W, hocc, Vec3.smul, Vec3.dot, Vec3.add, Vec3.zero]

end VisRTX
